import Mathlib

/-!
Verification development for the tubely upload handlers
(`handler_upload_video.go`, `handler_upload_thumbnail.go`).

The two HTTP handlers and the two media helpers are embedded shallowly.
External collaborators (UUID parsing, JWT validation, the metadata store,
the multipart reader, the object-storage client, the subprocess
invocations and the random source) are modelled as oracle fields of the
request structure: each field records the outcome that collaborator
produced for this request.  The handler bodies themselves are translated
statement by statement from the Go source, producing an HTTP status, the
ordered list of side effects attempted, and the record (if any) that was
successfully persisted to the metadata store.

Floating point: stream width and height come from JSON, which cannot
denote Inf or NaN, so they are embedded as exact rationals.  The single
float64 division `width / height` is embedded by `fdiv`, which follows
IEEE 754 exactly on the zero-denominator cases (x/0 = ±Inf for x ≠ 0,
0/0 = NaN — those divisions are exact in IEEE 754) and models the
finite/finite case by exact rational division (rounding of the quotient
is abstracted away; it cannot affect any classification stated here).
-/

namespace Tubely

/-- Result of the float64 division `width / height`: NaN, ±Inf, or a
finite value (modelled exactly as a rational). -/
inductive GoFloat where
  | nan : GoFloat
  | inf : GoFloat
  | neginf : GoFloat
  | fin (q : ℚ) : GoFloat
deriving DecidableEq

/-- IEEE 754 `<` on the embedded values: every comparison involving NaN
is false; -Inf < finite < +Inf; finite values compare as rationals. -/
def GoFloat.lt : GoFloat → GoFloat → Bool
  | .nan, _ => false
  | _, .nan => false
  | .inf, _ => false
  | _, .inf => true
  | .neginf, .neginf => false
  | .neginf, _ => true
  | _, .neginf => false
  | .fin a, .fin b => decide (a < b)

/-- Embedding of the float64 division `width / height` for finite
operands: IEEE 754 gives +Inf for positive/0, -Inf for negative/0 and
NaN for 0/0; the finite/finite quotient is modelled exactly. -/
def fdiv (a b : ℚ) : GoFloat :=
  if b = 0 then
    if a = 0 then GoFloat.nan
    else if 0 < a then GoFloat.inf
    else GoFloat.neginf
  else GoFloat.fin (a / b)

/-- One entry of the `streams` array of the prober's JSON output
(`getVideoAspectRatio`'s anonymous struct): width and height are JSON
numbers, hence finite. -/
structure Stream where
  width : ℚ
  height : ℚ
deriving DecidableEq

/-- The switch at the end of `getVideoAspectRatio`:
`result < 1.0` gives "9:16", `result > 1.0 && result < 2.0` gives
"16:9", default "other". -/
def classifyRatio (result : GoFloat) : String :=
  if result.lt (GoFloat.fin 1) then "9:16"
  else if (GoFloat.fin 1).lt result && result.lt (GoFloat.fin 2) then "16:9"
  else "other"

/-- Embedding of `getVideoAspectRatio`.  The ffprobe subprocess is an
oracle: `none` models a process/IO error (`cmd.Run` failing), `some
streams` the parsed `streams` array.  `if len(data.Streams) < 1` returns
the error `Missing video stream data`; otherwise the first stream's
width is divided by its height and the quotient classified. -/
def getVideoAspectRatio (probeOutput : Option (List Stream)) : Except String String :=
  match probeOutput with
  | none => Except.error "ffprobe failed"
  | some streams =>
    match streams with
    | [] => Except.error "Missing video stream data"
    | s :: _ => Except.ok (classifyRatio (fdiv s.width s.height))

/-- The 64 characters of the base64url alphabet used by Go's
`base64.RawURLEncoding` (RFC 4648 §5, no padding). -/
def b64urlAlphabet : List Char :=
  ['A', 'B', 'C', 'D', 'E', 'F', 'G', 'H', 'I', 'J', 'K', 'L', 'M',
   'N', 'O', 'P', 'Q', 'R', 'S', 'T', 'U', 'V', 'W', 'X', 'Y', 'Z',
   'a', 'b', 'c', 'd', 'e', 'f', 'g', 'h', 'i', 'j', 'k', 'l', 'm',
   'n', 'o', 'p', 'q', 'r', 's', 't', 'u', 'v', 'w', 'x', 'y', 'z',
   '0', '1', '2', '3', '4', '5', '6', '7', '8', '9', '-', '_']

/-- Character of the base64url alphabet at a 6-bit index. -/
def alphaChar (i : Nat) : Char := b64urlAlphabet.getD i 'A'

/-- Embedding of `base64.RawURLEncoding.EncodeToString`: bytes are
consumed three at a time into four 6-bit indices (the shifts and masks
of the encoder written as division and remainder); a trailing group of
two bytes yields three characters and a trailing single byte yields two
characters; no padding is emitted. -/
def encodeBase64url : List Nat → List Char
  | b1 :: b2 :: b3 :: rest =>
    alphaChar (b1 / 4) :: alphaChar (b1 % 4 * 16 + b2 / 16) ::
      alphaChar (b2 % 16 * 4 + b3 / 64) :: alphaChar (b3 % 64) ::
        encodeBase64url rest
  | [b1, b2] => [alphaChar (b1 / 4), alphaChar (b1 % 4 * 16 + b2 / 16), alphaChar (b2 % 16 * 4)]
  | [b1] => [alphaChar (b1 / 4), alphaChar (b1 % 4 * 16)]
  | [] => []

/-- Embedding of `strings.Split(s, "/")` on the character list of `s`. -/
def splitOnSlash : List Char → List (List Char)
  | [] => [[]]
  | c :: rest =>
    let r := splitOnSlash rest
    if c = '/' then [] :: r
    else (c :: r.headD []) :: r.tail

/-- The element `[1]` taken of `strings.Split(mediaType, "/")` by both
handlers when forming the file extension.  Go would panic if no slash
were present; both call sites have already checked the media type
against slash-containing literals, so the default is unreachable. -/
def extensionOf (mediaType : String) : String :=
  String.mk ((splitOnSlash mediaType.data).getD 1 [])

/-- The video metadata record (`database.Video`): owning user and the
two optional URLs.  The ID is kept implicit: each request model carries
the lookup result for its own ID. -/
structure VideoRecord where
  userID : Nat
  videoURL : Option String
  thumbnailURL : Option String
deriving DecidableEq

/-- The fields of `apiConfig` the two handlers read. -/
structure ApiConfig where
  s3Bucket : String
  s3CfDistribution : String
  assetsRoot : String
  port : String
deriving DecidableEq

/-- Side effects a handler can attempt, in source order.  An event is
recorded when the operation is attempted, whether or not it succeeds. -/
inductive Effect where
  | parseMultipartForm : Effect
  | formFile : Effect
  | createTemp : Effect
  | copyToTemp : Effect
  | probe : Effect
  | remux : Effect
  | putObject : Effect
  | createAssetFile : Effect
  | copyToAsset : Effect
  | updateVideo : Effect
deriving DecidableEq

/-- Outcome of one handler invocation: HTTP status written, the ordered
side effects attempted, and the record successfully persisted to the
metadata store (`none` when no successful `UpdateVideo` happened). -/
structure HandlerResult where
  status : Nat
  events : List Effect
  persisted : Option VideoRecord
deriving DecidableEq

/-- Oracle outcomes of the external collaborators consulted by
`handlerUploadVideo`, in source order: `uuid.Parse`, `GetBearerToken`,
`ValidateJWT`, `GetVideo`, `r.FormFile("video")`, `mime.ParseMediaType`,
`os.CreateTemp`, `io.Copy`, `Seek`, ffprobe, ffmpeg remux, opening the
remuxed file, `rand.Read` (with the byte stream it fills), `PutObject`
and `UpdateVideo`. -/
structure VideoUploadRequest where
  pathVideoID : Option Nat
  bearerToken : Option String
  jwtUserID : Option Nat
  dbRecord : Option VideoRecord
  formFileOK : Bool
  parsedMediaType : Option String
  createTempOK : Bool
  copyOK : Bool
  seekOK : Bool
  probeOutput : Option (List Stream)
  remuxOK : Bool
  openProcessedOK : Bool
  randOK : Bool
  randGen : Nat → Nat
  putOK : Bool
  updateOK : Bool

/-- The switch assigning the storage-key directory from the aspect
ratio; `var prefix string` starts as the empty string and no default
case exists, so an unexpected ratio would leave it empty. -/
def pfxFor (aspectRatio : String) : String :=
  if aspectRatio = "16:9" then "landscape"
  else if aspectRatio = "9:16" then "portrait"
  else if aspectRatio = "other" then "other"
  else ""

/-- Embedding of `handlerUploadVideo`, translated early return by early
return from the Go source.  Each `if err != nil` early return becomes a
match on the corresponding oracle; the `!=` comparisons become matches
on boolean equality; the local variables (prefix, extension, filename,
url, updated record) are inlined at their use site in the success
branch.  Statuses: 400 bad request, 401 unauthorized, 404 not found,
500 internal error, 200 success. -/
def handlerUploadVideo (cfg : ApiConfig) (r : VideoUploadRequest) : HandlerResult :=
  match r.pathVideoID with
  | none => ⟨400, [], none⟩
  | some _ =>
  match r.bearerToken with
  | none => ⟨401, [], none⟩
  | some _ =>
  match r.jwtUserID with
  | none => ⟨401, [], none⟩
  | some userID =>
  match r.dbRecord with
  | none => ⟨404, [], none⟩
  | some videoMetadata =>
  match videoMetadata.userID == userID with
  | false => ⟨401, [], none⟩
  | true =>
  match r.formFileOK with
  | false => ⟨500, [Effect.formFile], none⟩
  | true =>
  match r.parsedMediaType with
  | none => ⟨400, [Effect.formFile], none⟩
  | some mediaType =>
  match mediaType == "video/mp4" with
  | false => ⟨400, [Effect.formFile], none⟩
  | true =>
  match r.createTempOK with
  | false => ⟨500, [Effect.formFile, Effect.createTemp], none⟩
  | true =>
  match r.copyOK with
  | false => ⟨500, [Effect.formFile, Effect.createTemp, Effect.copyToTemp], none⟩
  | true =>
  match r.seekOK with
  | false => ⟨500, [Effect.formFile, Effect.createTemp, Effect.copyToTemp], none⟩
  | true =>
  match getVideoAspectRatio r.probeOutput with
  | Except.error _ =>
    ⟨500, [Effect.formFile, Effect.createTemp, Effect.copyToTemp, Effect.probe], none⟩
  | Except.ok aspectRatio =>
  match r.remuxOK with
  | false =>
    ⟨500, [Effect.formFile, Effect.createTemp, Effect.copyToTemp, Effect.probe,
           Effect.remux], none⟩
  | true =>
  match r.openProcessedOK with
  | false =>
    ⟨500, [Effect.formFile, Effect.createTemp, Effect.copyToTemp, Effect.probe,
           Effect.remux], none⟩
  | true =>
  match r.randOK with
  | false =>
    ⟨500, [Effect.formFile, Effect.createTemp, Effect.copyToTemp, Effect.probe,
           Effect.remux], none⟩
  | true =>
  match r.putOK with
  | false =>
    ⟨500, [Effect.formFile, Effect.createTemp, Effect.copyToTemp, Effect.probe,
           Effect.remux, Effect.putObject], none⟩
  | true =>
  match r.updateOK with
  | false =>
    ⟨500, [Effect.formFile, Effect.createTemp, Effect.copyToTemp, Effect.probe,
           Effect.remux, Effect.putObject, Effect.updateVideo], none⟩
  | true =>
    ⟨200, [Effect.formFile, Effect.createTemp, Effect.copyToTemp, Effect.probe,
           Effect.remux, Effect.putObject, Effect.updateVideo],
     some { videoMetadata with videoURL := some (cfg.s3CfDistribution ++ "/" ++
       (pfxFor aspectRatio ++ "/" ++
        String.mk (encodeBase64url ((List.range 32).map r.randGen)) ++ "." ++
        extensionOf mediaType)) }⟩

/-- Oracle outcomes of the collaborators consulted by
`handlerUploadThumbnail`, in source order: `uuid.Parse`,
`GetBearerToken`, `ValidateJWT`, `ParseMultipartForm`,
`r.FormFile("thumbnail")`, `GetVideo`, `mime.ParseMediaType`,
`rand.Read`, `os.Create`, `io.Copy` and `UpdateVideo`. -/
structure ThumbUploadRequest where
  pathVideoID : Option Nat
  bearerToken : Option String
  jwtUserID : Option Nat
  parseFormOK : Bool
  formFileOK : Bool
  dbRecord : Option VideoRecord
  parsedMediaType : Option String
  randOK : Bool
  randGen : Nat → Nat
  createFileOK : Bool
  copyOK : Bool
  updateOK : Bool

/-- Embedding of `handlerUploadThumbnail`, translated early return by
early return from the Go source.  Note the source parses the multipart
form and reads the file field before looking up the record and checking
ownership, and maps an unparsable media type to 500. -/
def handlerUploadThumbnail (cfg : ApiConfig) (r : ThumbUploadRequest) : HandlerResult :=
  match r.pathVideoID with
  | none => ⟨400, [], none⟩
  | some _ =>
  match r.bearerToken with
  | none => ⟨401, [], none⟩
  | some _ =>
  match r.jwtUserID with
  | none => ⟨401, [], none⟩
  | some userID =>
  match r.parseFormOK with
  | false => ⟨500, [Effect.parseMultipartForm], none⟩
  | true =>
  match r.formFileOK with
  | false => ⟨500, [Effect.parseMultipartForm, Effect.formFile], none⟩
  | true =>
  match r.dbRecord with
  | none => ⟨404, [Effect.parseMultipartForm, Effect.formFile], none⟩
  | some video =>
  match video.userID == userID with
  | false => ⟨401, [Effect.parseMultipartForm, Effect.formFile], none⟩
  | true =>
  match r.parsedMediaType with
  | none => ⟨500, [Effect.parseMultipartForm, Effect.formFile], none⟩
  | some mediaType =>
  match !(mediaType == "image/jpeg") && !(mediaType == "image/png") with
  | true => ⟨400, [Effect.parseMultipartForm, Effect.formFile], none⟩
  | false =>
  match r.randOK with
  | false => ⟨500, [Effect.parseMultipartForm, Effect.formFile], none⟩
  | true =>
  match r.createFileOK with
  | false => ⟨500, [Effect.parseMultipartForm, Effect.formFile, Effect.createAssetFile], none⟩
  | true =>
  match r.copyOK with
  | false =>
    ⟨500, [Effect.parseMultipartForm, Effect.formFile, Effect.createAssetFile,
           Effect.copyToAsset], none⟩
  | true =>
  match r.updateOK with
  | false =>
    ⟨500, [Effect.parseMultipartForm, Effect.formFile, Effect.createAssetFile,
           Effect.copyToAsset, Effect.updateVideo], none⟩
  | true =>
    ⟨200, [Effect.parseMultipartForm, Effect.formFile, Effect.createAssetFile,
           Effect.copyToAsset, Effect.updateVideo],
     some { video with thumbnailURL := some ("http://localhost:" ++ cfg.port ++
       "/assets/" ++
       (String.mk (encodeBase64url ((List.range 32).map r.randGen)) ++ "." ++
        extensionOf mediaType)) }⟩

/-- Spec-side classification of a finite ratio, written from the spec's
words: ratio < 1.0 gives "9:16"; 1.0 < ratio < 2.0 gives "16:9"; any
other value (exactly 1.0, or at least 2.0) gives "other". -/
def specClassify (ratio : ℚ) : String :=
  if ratio < 1 then "9:16"
  else if 1 < ratio ∧ ratio < 2 then "16:9"
  else "other"

/-- Spec-side reading of "stays directly inside the assets root": the
filename contains no path separator and is not empty nor a dot entry,
so joining it to the assets root addresses a direct child of that
directory. -/
def noPathTraversal (filename : String) : Prop :=
  '/' ∉ filename.data ∧ filename ≠ "" ∧ filename ≠ "." ∧ filename ≠ ".."

/-! Helper lemmas shared by several claims. -/

theorem classifyRatio_fin (q : ℚ) : classifyRatio (GoFloat.fin q) = specClassify q := by
  simp only [classifyRatio, specClassify, GoFloat.lt, Bool.and_eq_true, decide_eq_true_eq]

theorem classifyRatio_cases (r : GoFloat) :
    classifyRatio r = "9:16" ∨ classifyRatio r = "16:9" ∨ classifyRatio r = "other" := by
  unfold classifyRatio
  split
  · exact Or.inl rfl
  · split
    · exact Or.inr (Or.inl rfl)
    · exact Or.inr (Or.inr rfl)

theorem getD_mem_or {α : Type} (l : List α) (i : Nat) (d : α) :
    l.getD i d ∈ l ∨ l.getD i d = d := by
  induction l generalizing i with
  | nil => simp
  | cons a t ih =>
    cases i with
    | zero => simp
    | succ j =>
      rw [List.getD_cons_succ]
      rcases ih j with hm | he
      · exact Or.inl (List.mem_cons_of_mem a hm)
      · exact Or.inr he

theorem alphaChar_mem (i : Nat) : alphaChar i ∈ b64urlAlphabet := by
  rcases getD_mem_or b64urlAlphabet i 'A' with hm | he
  · exact hm
  · rw [alphaChar, he]; decide

theorem encodeBase64url_length (l : List Nat) :
    (encodeBase64url l).length = (4 * l.length + 2) / 3 := by
  induction l using encodeBase64url.induct with
  | case1 b1 b2 b3 rest ih =>
    simp only [encodeBase64url, List.length_cons]
    omega
  | case2 b1 b2 => simp [encodeBase64url]
  | case3 b1 => simp [encodeBase64url]
  | case4 => simp [encodeBase64url]

theorem encodeBase64url_mem {c : Char} {l : List Nat} (h : c ∈ encodeBase64url l) :
    c ∈ b64urlAlphabet := by
  induction l using encodeBase64url.induct with
  | case1 b1 b2 b3 rest ih =>
    simp only [encodeBase64url, List.mem_cons] at h
    rcases h with h | h | h | h | h
    · exact h ▸ alphaChar_mem _
    · exact h ▸ alphaChar_mem _
    · exact h ▸ alphaChar_mem _
    · exact h ▸ alphaChar_mem _
    · exact ih h
  | case2 b1 b2 =>
    simp only [encodeBase64url, List.mem_cons, List.not_mem_nil, or_false] at h
    rcases h with h | h | h <;> exact h ▸ alphaChar_mem _
  | case3 b1 =>
    simp only [encodeBase64url, List.mem_cons, List.not_mem_nil, or_false] at h
    rcases h with h | h <;> exact h ▸ alphaChar_mem _
  | case4 => simp [encodeBase64url] at h

theorem extensionOf_mp4 : extensionOf "video/mp4" = "mp4" := by decide

theorem extensionOf_jpeg : extensionOf "image/jpeg" = "jpeg" := by decide

theorem extensionOf_png : extensionOf "image/png" = "png" := by decide

theorem encodeBase64url_not_mem {c : Char} (hc : c ∉ b64urlAlphabet) (l : List Nat) :
    c ∉ encodeBase64url l :=
  fun h => hc (encodeBase64url_mem h)

theorem getVideoAspectRatio_ok_cases {p : Option (List Stream)} {ar : String}
    (h : getVideoAspectRatio p = Except.ok ar) :
    ar = "9:16" ∨ ar = "16:9" ∨ ar = "other" := by
  match p with
  | none => simp [getVideoAspectRatio] at h
  | some [] => simp [getVideoAspectRatio] at h
  | some (s :: rest) =>
    simp only [getVideoAspectRatio, Except.ok.injEq] at h
    exact h ▸ classifyRatio_cases (fdiv s.width s.height)

/-- Success shape of the video handler: a 200 response determines the
looked-up record, an ok classification, the mp4 media type, and the
exact persisted record. -/
theorem videoSuccess_shape (cfg : ApiConfig) (r : VideoUploadRequest)
    (h : (handlerUploadVideo cfg r).status = 200) :
    ∃ videoMetadata aspectRatio,
      r.dbRecord = some videoMetadata ∧
      getVideoAspectRatio r.probeOutput = Except.ok aspectRatio ∧
      r.parsedMediaType = some "video/mp4" ∧
      (handlerUploadVideo cfg r).persisted = some
        { videoMetadata with videoURL := some (cfg.s3CfDistribution ++ "/" ++
            (pfxFor aspectRatio ++ "/" ++
              String.mk (encodeBase64url ((List.range 32).map r.randGen)) ++ "." ++ "mp4")) } := by
  rcases hE : handlerUploadVideo cfg r with ⟨st, ev, pe⟩
  rw [hE] at h
  simp only at h
  unfold handlerUploadVideo at hE
  repeat' split at hE
  all_goals cases hE
  all_goals try omega
  rename_i x16 u1 hPath x15 tok hTok x14 uid hJwt x13 vm hDb x12 hOwn x11 hFF
    x10 mt hMT x9 hMT2 x8 hCT x7 hCp x6 hSk x5 ar hAR x4 hRx x3 hOp x2 hRnd
    x1 hPut x0 hUpd
  have hmt : mt = "video/mp4" := by simpa using hMT2
  subst hmt
  exact ⟨vm, ar, hDb, hAR, hMT, by simp only [extensionOf_mp4]⟩

/-- Success shape of the thumbnail handler: a 200 response determines
the looked-up record, an accepted media type, and the exact persisted
record. -/
theorem thumbSuccess_shape (cfg : ApiConfig) (r : ThumbUploadRequest)
    (h : (handlerUploadThumbnail cfg r).status = 200) :
    ∃ video mediaType,
      r.dbRecord = some video ∧
      r.parsedMediaType = some mediaType ∧
      (mediaType = "image/jpeg" ∨ mediaType = "image/png") ∧
      (handlerUploadThumbnail cfg r).persisted = some
        { video with thumbnailURL := some ("http://localhost:" ++ cfg.port ++ "/assets/" ++
            (String.mk (encodeBase64url ((List.range 32).map r.randGen)) ++ "." ++
              extensionOf mediaType)) } := by
  rcases hE : handlerUploadThumbnail cfg r with ⟨st, ev, pe⟩
  rw [hE] at h
  simp only at h
  unfold handlerUploadThumbnail at hE
  repeat' split at hE
  all_goals cases hE
  all_goals try omega
  rename_i x11 u1 hPath x10 tok hTok x9 uid hJwt x8 hPF x7 hFF x6 vid hDb
    x5 hOwn x4 mt hMT x3 hMime x2 hRnd x1 hCF x0 hCp xx hUpd
  have hdisj : mt = "image/jpeg" ∨ mt = "image/png" := by
    have := hMime
    simp only [Bool.and_eq_false_iff, Bool.not_eq_false', beq_iff_eq] at this
    exact this
  exact ⟨vid, mt, hDb, hMT, hdisj, rfl⟩

/-! Concrete fixtures used by counterexamples and witnesses. -/

/-- A concrete configuration. -/
def cfgEx : ApiConfig := ⟨"bucket", "https://d3.example.net", "./assets", "8091"⟩

/-- Thumbnail request whose caller (user 1) does not own the record
(owner 2); every collaborator up to the ownership check succeeds. -/
def thumbOwnerMismatchReq : ThumbUploadRequest :=
  ⟨some 3, some "token", some 1, true, true, some ⟨2, none, none⟩, some "image/png",
   true, fun _ => 0, true, true, true⟩

/-- Video request whose caller (user 1) does not own the record (owner 2). -/
def videoOwnerMismatchReq : VideoUploadRequest :=
  ⟨some 3, some "token", some 1, some ⟨2, none, none⟩, true, some "video/mp4",
   true, true, true, some [⟨0, 0⟩], true, true, true, fun _ => 0, true, true⟩

/-- Video request with a well-formed but unknown video ID and no bearer
token. -/
def videoUnknownIdNoTokenReq : VideoUploadRequest :=
  ⟨some 3, none, none, none, true, some "video/mp4",
   true, true, true, some [⟨0, 0⟩], true, true, true, fun _ => 0, true, true⟩

/-- Thumbnail request whose declared part content type fails to parse. -/
def thumbUnparsableMimeReq : ThumbUploadRequest :=
  ⟨some 3, some "token", some 1, true, true, some ⟨1, none, none⟩, none,
   true, fun _ => 0, true, true, true⟩

/-- Video request whose declared content type parses to a non-mp4 type. -/
def videoBadMimeReq : VideoUploadRequest :=
  ⟨some 3, some "token", some 1, some ⟨1, none, none⟩, true, some "video/quicktime",
   true, true, true, some [⟨0, 0⟩], true, true, true, fun _ => 0, true, true⟩

/-- Video request on which every collaborator succeeds. -/
def videoOkReq : VideoUploadRequest :=
  ⟨some 3, some "token", some 1, some ⟨1, none, none⟩, true, some "video/mp4",
   true, true, true, some [⟨0, 0⟩], true, true, true, fun _ => 0, true, true⟩

/-- Thumbnail request on which every collaborator succeeds. -/
def thumbOkReq : ThumbUploadRequest :=
  ⟨some 3, some "token", some 1, true, true, some ⟨1, none, none⟩, some "image/png",
   true, fun _ => 0, true, true, true⟩

/-! Claim theorems. -/

/-- C2 (counterexample): a thumbnail upload by a non-owner is rejected
with 401, but only after the multipart form was parsed and the file
field read — file processing does occur before the rejection,
contradicting the claim for the thumbnail handler. -/
theorem thumbnail_processes_before_ownership_cex :
    handlerUploadThumbnail cfgEx thumbOwnerMismatchReq =
      ⟨401, [Effect.parseMultipartForm, Effect.formFile], none⟩ ∧
    Effect.parseMultipartForm ∈ (handlerUploadThumbnail cfgEx thumbOwnerMismatchReq).events ∧
    Effect.formFile ∈ (handlerUploadThumbnail cfgEx thumbOwnerMismatchReq).events := by
  refine ⟨rfl, ?_, ?_⟩ <;> decide

/-- C2 (amended): an upload by a non-owner is rejected with a 401-class
error by both handlers; the video handler rejects before any file
processing (no effects at all), while the thumbnail handler rejects only
after the multipart form has been parsed and the file field read. -/
theorem ownership_rejected_amended :
    (∀ (cfg : ApiConfig) (r : VideoUploadRequest) (v : Nat) (t : String) (u : Nat)
        (rec : VideoRecord),
      r.pathVideoID = some v → r.bearerToken = some t → r.jwtUserID = some u →
      r.dbRecord = some rec → rec.userID ≠ u →
      handlerUploadVideo cfg r = ⟨401, [], none⟩) ∧
    (∀ (cfg : ApiConfig) (r : ThumbUploadRequest) (v : Nat) (t : String) (u : Nat)
        (rec : VideoRecord),
      r.pathVideoID = some v → r.bearerToken = some t → r.jwtUserID = some u →
      r.parseFormOK = true → r.formFileOK = true →
      r.dbRecord = some rec → rec.userID ≠ u →
      handlerUploadThumbnail cfg r =
        ⟨401, [Effect.parseMultipartForm, Effect.formFile], none⟩) := by
  constructor
  · intro cfg r v t u rec hPath hTok hJwt hDb hOwn
    have hb : (rec.userID == u) = false := by simpa using hOwn
    simp only [handlerUploadVideo, hPath, hTok, hJwt, hDb, hb]
  · intro cfg r v t u rec hPath hTok hJwt hPF hFF hDb hOwn
    have hb : (rec.userID == u) = false := by simpa using hOwn
    simp only [handlerUploadThumbnail, hPath, hTok, hJwt, hPF, hFF, hDb, hb]

/-- Witness for C2 (amended): both parts applied at concrete
owner-mismatch requests (caller 1, owner 2). -/
theorem ownership_rejected_amended_witness :
    handlerUploadVideo cfgEx videoOwnerMismatchReq = ⟨401, [], none⟩ ∧
    handlerUploadThumbnail cfgEx thumbOwnerMismatchReq =
      ⟨401, [Effect.parseMultipartForm, Effect.formFile], none⟩ :=
  ⟨ownership_rejected_amended.1 cfgEx videoOwnerMismatchReq 3 "token" 1 ⟨2, none, none⟩
      rfl rfl rfl rfl (by decide),
   ownership_rejected_amended.2 cfgEx thumbOwnerMismatchReq 3 "token" 1 ⟨2, none, none⟩
      rfl rfl rfl rfl rfl rfl (by decide)⟩

/-- C3 (counterexample): a request with a well-formed but unknown video
ID and a missing token is answered 401 unauthorized, not 404 not found,
because the video handler validates the token before looking up the
record. -/
theorem unknown_id_invalid_token_cex :
    (handlerUploadVideo cfgEx videoUnknownIdNoTokenReq).status = 401 ∧
    (handlerUploadVideo cfgEx videoUnknownIdNoTokenReq).status ≠ 404 := by
  refine ⟨rfl, ?_⟩
  decide

/-- C3 (amended): in the video upload handler the bearer token is
extracted and validated before the record is looked up; a missing or
invalid token yields 401 regardless of whether the ID is known, and 404
arises only after authentication succeeds. -/
theorem token_validated_before_lookup_amended :
    (∀ (cfg : ApiConfig) (r : VideoUploadRequest) (v : Nat),
      r.pathVideoID = some v → r.bearerToken = none →
      handlerUploadVideo cfg r = ⟨401, [], none⟩) ∧
    (∀ (cfg : ApiConfig) (r : VideoUploadRequest) (v : Nat) (t : String),
      r.pathVideoID = some v → r.bearerToken = some t → r.jwtUserID = none →
      handlerUploadVideo cfg r = ⟨401, [], none⟩) ∧
    (∀ (cfg : ApiConfig) (r : VideoUploadRequest) (v : Nat) (t : String) (u : Nat),
      r.pathVideoID = some v → r.bearerToken = some t → r.jwtUserID = some u →
      r.dbRecord = none →
      handlerUploadVideo cfg r = ⟨404, [], none⟩) := by
  refine ⟨?_, ?_, ?_⟩
  · intro cfg r v hPath hTok
    simp only [handlerUploadVideo, hPath, hTok]
  · intro cfg r v t hPath hTok hJwt
    simp only [handlerUploadVideo, hPath, hTok, hJwt]
  · intro cfg r v t u hPath hTok hJwt hDb
    simp only [handlerUploadVideo, hPath, hTok, hJwt, hDb]

/-- Witness for C3 (amended): the missing-token part applied at the
concrete unknown-ID request. -/
theorem token_validated_before_lookup_amended_witness :
    handlerUploadVideo cfgEx videoUnknownIdNoTokenReq = ⟨401, [], none⟩ :=
  token_validated_before_lookup_amended.1 cfgEx videoUnknownIdNoTokenReq 3 rfl rfl

/-- C4 (counterexample): a thumbnail upload whose declared part content
type cannot be parsed is answered 500 internal error, not a 400-class
error — a different taxonomy class from a disallowed type such as
image/gif. -/
theorem unparsable_thumb_mime_cex :
    (handlerUploadThumbnail cfgEx thumbUnparsableMimeReq).status = 500 ∧
    ¬(400 ≤ (handlerUploadThumbnail cfgEx thumbUnparsableMimeReq).status ∧
      (handlerUploadThumbnail cfgEx thumbUnparsableMimeReq).status < 500) := by
  refine ⟨rfl, ?_⟩
  decide

/-- C4 (amended): in the thumbnail handler an unparsable part content
type fails with a 500 internal error, whereas a parsable but disallowed
type such as image/gif fails with a 400 bad-request error. -/
theorem unparsable_thumb_mime_amended :
    ∀ (cfg : ApiConfig) (r : ThumbUploadRequest) (v : Nat) (t : String) (u : Nat)
      (rec : VideoRecord),
      r.pathVideoID = some v → r.bearerToken = some t → r.jwtUserID = some u →
      r.parseFormOK = true → r.formFileOK = true →
      r.dbRecord = some rec → rec.userID = u →
      (r.parsedMediaType = none →
        handlerUploadThumbnail cfg r =
          ⟨500, [Effect.parseMultipartForm, Effect.formFile], none⟩) ∧
      (r.parsedMediaType = some "image/gif" →
        handlerUploadThumbnail cfg r =
          ⟨400, [Effect.parseMultipartForm, Effect.formFile], none⟩) := by
  intro cfg r v t u rec hPath hTok hJwt hPF hFF hDb hOwn
  have hb : (rec.userID == u) = true := by simpa using hOwn
  constructor
  · intro hMT
    simp only [handlerUploadThumbnail, hPath, hTok, hJwt, hPF, hFF, hDb, hb, hMT]
  · intro hMT
    have hgif : (!("image/gif" == "image/jpeg") && !("image/gif" == "image/png")) = true := by
      decide
    simp only [handlerUploadThumbnail, hPath, hTok, hJwt, hPF, hFF, hDb, hb, hMT, hgif]

/-- Witness for C4 (amended): the unparsable part applied at the
concrete request with an unparsable content type. -/
theorem unparsable_thumb_mime_amended_witness :
    handlerUploadThumbnail cfgEx thumbUnparsableMimeReq =
      ⟨500, [Effect.parseMultipartForm, Effect.formFile], none⟩ :=
  (unparsable_thumb_mime_amended cfgEx thumbUnparsableMimeReq 3 "token" 1 ⟨1, none, none⟩
    rfl rfl rfl rfl rfl rfl rfl).1 rfl

/-- C5: whenever the video upload handler returns anything but 200, no
record is persisted to the metadata store (a failed UpdateVideo call is
modelled as persisting nothing), so the stored video URL is unchanged on
every error return. -/
theorem no_metadata_update_on_failure (cfg : ApiConfig) (r : VideoUploadRequest)
    (h : (handlerUploadVideo cfg r).status ≠ 200) :
    (handlerUploadVideo cfg r).persisted = none := by
  rcases hE : handlerUploadVideo cfg r with ⟨st, ev, pe⟩
  rw [hE] at h
  simp only at h ⊢
  unfold handlerUploadVideo at hE
  repeat' split at hE
  all_goals cases hE
  all_goals first
    | rfl
    | exact absurd rfl h

/-- Witness for C5: the unknown-ID request fails (401) and persists
nothing. -/
theorem no_metadata_update_on_failure_witness :
    (handlerUploadVideo cfgEx videoUnknownIdNoTokenReq).persisted = none :=
  no_metadata_update_on_failure cfgEx videoUnknownIdNoTokenReq (by decide)

/-- C6: every successful video upload persists the record with its video
URL set to exactly distribution-base/prefix/name.ext, where the prefix
is landscape for a "16:9" classification, portrait for "9:16" and other
otherwise, the name is the unpadded base64url encoding of the 32 random
bytes, and the extension is the subtype of the declared MIME type
(mp4). -/
theorem video_url_format :
    (pfxFor "16:9" = "landscape" ∧ pfxFor "9:16" = "portrait" ∧ pfxFor "other" = "other") ∧
    ∀ (cfg : ApiConfig) (r : VideoUploadRequest),
      (handlerUploadVideo cfg r).status = 200 →
      ∃ videoMetadata aspectRatio,
        r.dbRecord = some videoMetadata ∧
        getVideoAspectRatio r.probeOutput = Except.ok aspectRatio ∧
        (handlerUploadVideo cfg r).persisted = some
          { videoMetadata with videoURL := some (cfg.s3CfDistribution ++ "/" ++
              (pfxFor aspectRatio ++ "/" ++
                String.mk (encodeBase64url ((List.range 32).map r.randGen)) ++ "." ++
                "mp4")) } := by
  refine ⟨⟨by decide, by decide, by decide⟩, ?_⟩
  intro cfg r h
  obtain ⟨vm, ar, h1, h2, _, h4⟩ := videoSuccess_shape cfg r h
  exact ⟨vm, ar, h1, h2, h4⟩

/-- Witness for C6: the all-collaborators-succeed request, with the 200
hypothesis discharged by evaluation. -/
theorem video_url_format_witness :
    ∃ videoMetadata aspectRatio,
      videoOkReq.dbRecord = some videoMetadata ∧
      getVideoAspectRatio videoOkReq.probeOutput = Except.ok aspectRatio ∧
      (handlerUploadVideo cfgEx videoOkReq).persisted = some
        { videoMetadata with videoURL := some (cfgEx.s3CfDistribution ++ "/" ++
            (pfxFor aspectRatio ++ "/" ++
              String.mk (encodeBase64url ((List.range 32).map videoOkReq.randGen)) ++ "." ++
              "mp4")) } :=
  video_url_format.2 cfgEx videoOkReq rfl

/-- C7: a video upload whose declared content type parses to anything
other than video/mp4 is rejected with 400, and the MIME check precedes
temp-file creation, probing, remuxing and the object-storage put: none
of those effects occur. -/
theorem mp4_only_rejection :
    ∀ (cfg : ApiConfig) (r : VideoUploadRequest) (v : Nat) (t : String) (u : Nat)
      (rec : VideoRecord) (m : String),
      r.pathVideoID = some v → r.bearerToken = some t → r.jwtUserID = some u →
      r.dbRecord = some rec → rec.userID = u → r.formFileOK = true →
      r.parsedMediaType = some m → m ≠ "video/mp4" →
      handlerUploadVideo cfg r = ⟨400, [Effect.formFile], none⟩ ∧
      Effect.createTemp ∉ (handlerUploadVideo cfg r).events ∧
      Effect.probe ∉ (handlerUploadVideo cfg r).events ∧
      Effect.remux ∉ (handlerUploadVideo cfg r).events ∧
      Effect.putObject ∉ (handlerUploadVideo cfg r).events := by
  intro cfg r v t u rec m hPath hTok hJwt hDb hOwn hFF hMT hm
  have hb : (rec.userID == u) = true := by simpa using hOwn
  have hmB : (m == "video/mp4") = false := by simpa using hm
  have hres : handlerUploadVideo cfg r = ⟨400, [Effect.formFile], none⟩ := by
    simp only [handlerUploadVideo, hPath, hTok, hJwt, hDb, hb, hFF, hMT, hmB]
  refine ⟨hres, ?_, ?_, ?_, ?_⟩ <;> rw [hres] <;> decide

/-- Witness for C7: the concrete video/quicktime request is rejected
with 400 and no storage effects. -/
theorem mp4_only_rejection_witness :
    handlerUploadVideo cfgEx videoBadMimeReq = ⟨400, [Effect.formFile], none⟩ ∧
    Effect.createTemp ∉ (handlerUploadVideo cfgEx videoBadMimeReq).events ∧
    Effect.probe ∉ (handlerUploadVideo cfgEx videoBadMimeReq).events ∧
    Effect.remux ∉ (handlerUploadVideo cfgEx videoBadMimeReq).events ∧
    Effect.putObject ∉ (handlerUploadVideo cfgEx videoBadMimeReq).events :=
  mp4_only_rejection cfgEx videoBadMimeReq 3 "token" 1 ⟨1, none, none⟩ "video/quicktime"
    rfl rfl rfl rfl rfl rfl rfl (by decide)

/-- C1: for every probe result whose first stream has width w and height
h (a genuine dimension, h > 0), getVideoAspectRatio classifies the ratio
r = w / h exactly as the spec states: r < 1.0 gives "9:16", 1.0 < r <
2.0 gives "16:9", any other value (exactly 1.0 or at least 2.0) gives
"other"; in particular 1920x1080 gives "16:9", 1080x1920 gives "9:16"
and 1000x1000 gives "other". -/
theorem aspect_ratio_classification :
    (∀ (w h : ℚ) (rest : List Stream), 0 < h →
      getVideoAspectRatio (some (⟨w, h⟩ :: rest)) = Except.ok (specClassify (w / h))) ∧
    getVideoAspectRatio (some [⟨1920, 1080⟩]) = Except.ok "16:9" ∧
    getVideoAspectRatio (some [⟨1080, 1920⟩]) = Except.ok "9:16" ∧
    getVideoAspectRatio (some [⟨1000, 1000⟩]) = Except.ok "other" := by
  have hA : ∀ (w h : ℚ) (rest : List Stream), 0 < h →
      getVideoAspectRatio (some (⟨w, h⟩ :: rest)) = Except.ok (specClassify (w / h)) := by
    intro w h rest hh
    simp only [getVideoAspectRatio, fdiv, hh.ne', if_false, ite_false, classifyRatio_fin]
  refine ⟨hA, ?_, ?_, ?_⟩
  · rw [hA 1920 1080 [] (by norm_num)]
    norm_num [specClassify]
  · rw [hA 1080 1920 [] (by norm_num)]
    norm_num [specClassify]
  · rw [hA 1000 1000 [] (by norm_num)]
    norm_num [specClassify]

/-- Witness for C1: the 1920x1080 instance of the universally quantified
part, with the positivity hypothesis discharged concretely. -/
theorem aspect_ratio_classification_witness :
    getVideoAspectRatio (some [⟨1920, 1080⟩]) = Except.ok (specClassify (1920 / 1080)) :=
  aspect_ratio_classification.1 1920 1080 [] (by norm_num)

/-- C8: an empty parsed stream list makes getVideoAspectRatio fail with
the distinct "Missing video stream data" error rather than any
classification bucket, and a classification is only ever produced from a
non-empty stream list. -/
theorem empty_stream_list_error :
    getVideoAspectRatio (some []) = Except.error "Missing video stream data" ∧
    ∀ (probeOutput : Option (List Stream)) (bucket : String),
      getVideoAspectRatio probeOutput = Except.ok bucket →
      ∃ s rest, probeOutput = some (s :: rest) := by
  refine ⟨rfl, ?_⟩
  intro probeOutput bucket h
  match probeOutput with
  | none => simp [getVideoAspectRatio] at h
  | some [] => simp [getVideoAspectRatio] at h
  | some (s :: rest) => exact ⟨s, rest, rfl⟩

/-- Witness for C8: a concrete one-stream probe output produces a
classification, so the theorem yields its non-emptiness. -/
theorem empty_stream_list_error_witness :
    ∃ s rest, (some [(⟨0, 0⟩ : Stream)] : Option (List Stream)) = some (s :: rest) :=
  empty_stream_list_error.2 (some [(⟨0, 0⟩ : Stream)]) "other" rfl

/-- C9: getVideoAspectRatio is total over degenerate dimensions: with a
non-empty stream list it always returns a bucket; positive width over
height 0 divides to +Inf and falls through to "other", 0 over 0 divides
to NaN and falls through to "other", and width 0 over a positive height
divides to 0 and classifies as "9:16"; no error is raised for zero
dimensions. -/
theorem degenerate_dimensions_total :
    (∀ (w : ℚ) (rest : List Stream), 0 < w →
      getVideoAspectRatio (some (⟨w, 0⟩ :: rest)) = Except.ok "other") ∧
    (∀ rest : List Stream, getVideoAspectRatio (some (⟨0, 0⟩ :: rest)) = Except.ok "other") ∧
    (∀ (h : ℚ) (rest : List Stream), 0 < h →
      getVideoAspectRatio (some (⟨0, h⟩ :: rest)) = Except.ok "9:16") ∧
    (∀ (s : Stream) (rest : List Stream), ∃ bucket,
      getVideoAspectRatio (some (s :: rest)) = Except.ok bucket) := by
  refine ⟨?_, ?_, ?_, ?_⟩
  · intro w rest hw
    simp [getVideoAspectRatio, fdiv, hw.ne', hw, classifyRatio, GoFloat.lt]
  · intro rest
    simp [getVideoAspectRatio, fdiv, classifyRatio, GoFloat.lt]
  · intro h rest hh
    simp [getVideoAspectRatio, fdiv, hh.ne', classifyRatio, GoFloat.lt]
  · intro s rest
    exact ⟨classifyRatio (fdiv s.width s.height), rfl⟩

/-- Witness for C9: width 1 over height 0 concretely classifies as
"other". -/
theorem degenerate_dimensions_total_witness :
    getVideoAspectRatio (some [⟨1, 0⟩]) = Except.ok "other" :=
  degenerate_dimensions_total.1 1 [] (by norm_num)

theorem encodeBase64url_count_slash (l : List Nat) : (encodeBase64url l).count '/' = 0 :=
  List.count_eq_zero.mpr (encodeBase64url_not_mem (by decide) l)

theorem encodeBase64url_count_dot (l : List Nat) : (encodeBase64url l).count '.' = 0 :=
  List.count_eq_zero.mpr (encodeBase64url_not_mem (by decide) l)

/-- Character counts of the video storage key for the three possible
directory components. -/
theorem key_count_one (pfx : String)
    (hp : pfx = "landscape" ∨ pfx = "portrait" ∨ pfx = "other") (l : List Nat) :
    (pfx ++ "/" ++ String.mk (encodeBase64url l) ++ "." ++ "mp4").data.count '/' = 1 ∧
    (pfx ++ "/" ++ String.mk (encodeBase64url l) ++ "." ++ "mp4").data.count '.' = 1 := by
  rcases hp with hp | hp | hp <;> subst hp <;>
    constructor <;>
      simp [String.data_append, List.count_append,
            encodeBase64url_count_slash, encodeBase64url_count_dot, List.count_cons]

/-- The thumbnail filename never escapes the assets directory: it has no
separator and is not a dot entry. -/
theorem thumb_fname_no_traversal (l : List Nat) (ext : String)
    (he : ext = "jpeg" ∨ ext = "png") :
    noPathTraversal (String.mk (encodeBase64url l) ++ "." ++ ext) := by
  have hlen : (String.mk (encodeBase64url l) ++ "." ++ ext).data =
      encodeBase64url l ++ '.' :: ext.data := by
    simp [String.data_append]
  have hextlen : ext.data.length = 4 ∨ ext.data.length = 3 := by
    rcases he with he | he <;> subst he
    · exact Or.inl rfl
    · exact Or.inr rfl
  refine ⟨?_, ?_, ?_, ?_⟩
  · rw [hlen]
    intro hmem
    rcases List.mem_append.mp hmem with hmem | hmem
    · exact encodeBase64url_not_mem (by decide) l hmem
    · rcases he with he | he <;> subst he <;> revert hmem <;> decide
  · intro hEq
    have hD := congrArg String.data hEq
    rw [hlen] at hD
    have hL := congrArg List.length hD
    rw [show ("" : String).data = [] from rfl] at hL
    simp only [List.length_append, List.length_cons, List.length_nil] at hL
    omega
  · intro hEq
    have hD := congrArg String.data hEq
    rw [hlen] at hD
    have hL := congrArg List.length hD
    rw [show ("." : String).data = ['.'] from rfl] at hL
    simp only [List.length_append, List.length_cons, List.length_nil] at hL
    omega
  · intro hEq
    have hD := congrArg String.data hEq
    rw [hlen] at hD
    have hL := congrArg List.length hD
    rw [show (".." : String).data = ['.', '.'] from rfl] at hL
    simp only [List.length_append, List.length_cons, List.length_nil] at hL
    omega

/-- C10: the generated random name is exactly 43 characters drawn from
the base64url alphabet (never slash, plus, equals or dot); consequently
a successful video upload's storage key contains exactly one slash and
exactly one dot, and a successful thumbnail upload's filename joins onto
the assets root without any path traversal. -/
theorem random_name_and_key_invariants :
    (∀ g : Nat → Nat,
      (encodeBase64url ((List.range 32).map g)).length = 43 ∧
      ∀ c ∈ encodeBase64url ((List.range 32).map g),
        c ∈ b64urlAlphabet ∧ c ≠ '/' ∧ c ≠ '+' ∧ c ≠ '=' ∧ c ≠ '.') ∧
    (∀ (cfg : ApiConfig) (r : VideoUploadRequest),
      (handlerUploadVideo cfg r).status = 200 →
      ∃ rec key,
        (handlerUploadVideo cfg r).persisted = some rec ∧
        rec.videoURL = some (cfg.s3CfDistribution ++ "/" ++ key) ∧
        key.data.count '/' = 1 ∧ key.data.count '.' = 1) ∧
    (∀ (cfg : ApiConfig) (r : ThumbUploadRequest),
      (handlerUploadThumbnail cfg r).status = 200 →
      ∃ rec fname,
        (handlerUploadThumbnail cfg r).persisted = some rec ∧
        rec.thumbnailURL = some ("http://localhost:" ++ cfg.port ++ "/assets/" ++ fname) ∧
        noPathTraversal fname) := by
  refine ⟨?_, ?_, ?_⟩
  · intro g
    constructor
    · rw [encodeBase64url_length]
      simp
    · intro c hc
      have hmem := encodeBase64url_mem hc
      refine ⟨hmem, ?_, ?_, ?_, ?_⟩ <;> (rintro rfl; revert hmem; decide)
  · intro cfg r h
    obtain ⟨vm, ar, _, hAR, _, hPe⟩ := videoSuccess_shape cfg r h
    have hp : pfxFor ar = "landscape" ∨ pfxFor ar = "portrait" ∨ pfxFor ar = "other" := by
      rcases getVideoAspectRatio_ok_cases hAR with hc | hc | hc <;> subst hc <;> simp [pfxFor]
    obtain ⟨h1, h2⟩ := key_count_one (pfxFor ar) hp ((List.range 32).map r.randGen)
    exact ⟨_, _, hPe, rfl, h1, h2⟩
  · intro cfg r h
    obtain ⟨vid, mt, _, _, hdisj, hPe⟩ := thumbSuccess_shape cfg r h
    have he : extensionOf mt = "jpeg" ∨ extensionOf mt = "png" := by
      rcases hdisj with hc | hc <;> subst hc <;>
        simp [extensionOf_jpeg, extensionOf_png]
    exact ⟨_, _, hPe, rfl,
      thumb_fname_no_traversal ((List.range 32).map r.randGen) (extensionOf mt) he⟩

/-- Witness for C10: the two success-conditioned parts applied at the
concrete all-success requests. -/
theorem random_name_and_key_invariants_witness :
    (∃ rec key,
      (handlerUploadVideo cfgEx videoOkReq).persisted = some rec ∧
      rec.videoURL = some (cfgEx.s3CfDistribution ++ "/" ++ key) ∧
      key.data.count '/' = 1 ∧ key.data.count '.' = 1) ∧
    (∃ rec fname,
      (handlerUploadThumbnail cfgEx thumbOkReq).persisted = some rec ∧
      rec.thumbnailURL = some ("http://localhost:" ++ cfgEx.port ++ "/assets/" ++ fname) ∧
      noPathTraversal fname) :=
  ⟨random_name_and_key_invariants.2.1 cfgEx videoOkReq rfl,
   random_name_and_key_invariants.2.2 cfgEx thumbOkReq rfl⟩

end Tubely
